import Mathlib

/-!
Shallow embedding of the fresh-cli repository (src/fresh_cli/config.py,
src/fresh_cli/api.py, src/fresh_cli/__main__.py).

HTTP traffic is modelled explicitly: each client operation is a function of
the server's response (status code plus parsed JSON payload), and the
request it issues is returned as data.  Python dictionaries from JSON are
modelled as structures of `Option` fields (a missing key is `none`);
`dict.get(k, d)` becomes `Option.getD`, `dict[k]` becomes a `match` whose
`none` branch is the KeyError.  Python exceptions are `Except String`.
-/

/-- A JSON ticket object as read by `Ticket.from_dict`: each field the code
looks up, `none` when the key is absent from the response dict. -/
structure TicketData where
  id : Option Int
  subject : Option String
  description : Option String
  status : Option Int
  priority : Option Int
  created_at : Option String
  updated_at : Option String
  requester_id : Option Int
  responder_id : Option Int
deriving DecidableEq, Repr

/-- The `Ticket` value object of api.py. -/
structure Ticket where
  id : Int
  subject : String
  description : String
  status : Int
  priority : Int
  created_at : String
  updated_at : String
  requester_id : Int
  responder_id : Option Int
deriving DecidableEq, Repr

/-- Embeds `Ticket.from_dict`: `data["id"]` raises a KeyError when absent (modelled
as `none`); every other field is read with `data.get(key, default)`, and
`responder_id` with `data.get("responder_id")` (default `None`). -/
def Ticket.from_dict (data : TicketData) : Option Ticket :=
  match data.id with
  | none => none
  | some i =>
      some { id := i
             subject := data.subject.getD ""
             description := data.description.getD ""
             status := data.status.getD 0
             priority := data.priority.getD 0
             created_at := data.created_at.getD ""
             updated_at := data.updated_at.getD ""
             requester_id := data.requester_id.getD 0
             responder_id := data.responder_id }

/-- httpx `response.raise_for_status()`: succeeds exactly on a 2xx status
code, otherwise raises an HTTPStatusError carrying the status. -/
def raise_for_status (code : Nat) : Except String Unit :=
  if 200 ≤ code ∧ code ≤ 299 then Except.ok () else
    Except.error ("HTTP error " ++ toString code)

/-- The filter dict built by the `list` command: at most a "status" and a
"priority" key. -/
structure Filters where
  status : Option Int
  priority : Option Int
deriving DecidableEq, Repr

/-- Python `tickets[:limit]` (a slice tolerates negative bounds: `l[:-k]`
drops the last `k` elements). -/
def pySliceTo (l : List Ticket) (n : Int) : List Ticket :=
  if n < 0 then l.take (l.length - (-n).toNat) else l.take n.toNat

/-- The list comprehension `[Ticket.from_dict(t) for t in ...]`; the whole
comprehension raises (here: `none`) as soon as one element does. -/
def parseTickets : List TicketData → Option (List Ticket)
  | [] => some []
  | d :: rest =>
      match Ticket.from_dict d, parseTickets rest with
      | some t, some ts => some (t :: ts)
      | _, _ => none

/-- The filtering block of `list_tickets`: under `if filters:` (nonempty
dict), keep exact status-code matches when "status" is set, then exact
priority-code matches when "priority" is set. -/
def applyFilters (filters : Filters) (tickets : List Ticket) : List Ticket :=
  if filters.status.isSome || filters.priority.isSome then
    let tickets1 :=
      match filters.status with
      | some s => tickets.filter (fun t => t.status == s)
      | none => tickets
    match filters.priority with
    | some p => tickets1.filter (fun t => t.priority == p)
    | none => tickets1
  else tickets

/-- Server response to `GET /tickets`: a status code and, on the JSON body,
the "tickets" array (`data.get("tickets", [])` defaults a missing key). -/
structure TicketsResponse where
  statusCode : Nat
  tickets : Option (List TicketData)
deriving DecidableEq, Repr

/-- Embeds `FreshserviceClient.list_tickets`: raise_for_status, parse the
"tickets" array, apply client-side filters, truncate to `limit`. -/
def list_tickets (resp : TicketsResponse) (filters : Filters) (limit : Int) :
    Except String (List Ticket) :=
  match raise_for_status resp.statusCode with
  | Except.error e => Except.error e
  | Except.ok _ =>
      match parseTickets (resp.tickets.getD []) with
      | none => Except.error "KeyError: id"
      | some tickets => Except.ok (pySliceTo (applyFilters filters tickets) limit)

/-- Server response to `GET /tickets/id`: status code and the "ticket"
object of the JSON body (`data["ticket"]` raises when absent). -/
structure TicketResponse where
  statusCode : Nat
  ticket : Option TicketData
deriving DecidableEq, Repr

/-- Embeds `FreshserviceClient.get_ticket`: raise_for_status, then
`Ticket.from_dict(data["ticket"])`. -/
def get_ticket (resp : TicketResponse) : Except String Ticket :=
  match raise_for_status resp.statusCode with
  | Except.error e => Except.error e
  | Except.ok _ =>
      match resp.ticket with
      | none => Except.error "KeyError: ticket"
      | some d =>
          match Ticket.from_dict d with
          | none => Except.error "KeyError: id"
          | some t => Except.ok t

/-- An HTTP request issued by the client; a JSON body is a list of
key/integer-value pairs. -/
structure HttpRequest where
  method : String
  url : String
  jsonBody : Option (List (String × Int))
deriving DecidableEq, Repr

/-- The PUT request built by `update_ticket_status`: `PUT
base_url/tickets/id` with payload status, where `base_url` is
`https://domain/api/v2`. -/
def update_request (domain : String) (ticket_id : Int) (status : Int) :
    HttpRequest :=
  { method := "PUT"
    url := "https://" ++ domain ++ "/api/v2" ++ "/tickets/" ++ toString ticket_id
    jsonBody := some [("status", status)] }

/-- Embeds `FreshserviceClient.update_ticket_status`: issues the PUT and calls
raise_for_status on the response; no value is returned on success. -/
def update_ticket_status (domain : String) (ticket_id : Int) (status : Int)
    (respCode : Nat) : HttpRequest × Except String Unit :=
  (update_request domain ticket_id status, raise_for_status respCode)

/-- The status-name-to-code dict of the `list` and `status` commands. -/
def status_map (name : String) : Option Int :=
  if name == "open" then some 2
  else if name == "pending" then some 3
  else if name == "resolved" then some 4
  else if name == "closed" then some 5
  else none

/-- The status dict lookup of the display layer:
`status_map.get(ticket.status, str(ticket.status))`. -/
def statusDisplay (s : Int) : String :=
  if s == 2 then "Open"
  else if s == 3 then "Pending"
  else if s == 4 then "Resolved"
  else if s == 5 then "Closed"
  else toString s

/-- The priority dict lookup of the display layer. -/
def priorityDisplay (p : Int) : String :=
  if p == 1 then "Low"
  else if p == 2 then "Medium"
  else if p == 3 then "High"
  else if p == 4 then "Urgent"
  else toString p

/-- Python format spec `s:<w`: pad with spaces on the right to width `w`,
never truncating. -/
def pyLjust (s : String) (w : Nat) : String :=
  s ++ String.mk (List.replicate (w - s.length) ' ')

/-- The subject shown by `list`:
`ticket.subject[:37] + "..." if len(ticket.subject) > 40 else ticket.subject`. -/
def subjectDisplay (s : String) : String :=
  if s.length > 40 then s.take 37 ++ "..." else s

/-- One table row printed by `list`. -/
def formatTicketRow (t : Ticket) : String :=
  pyLjust (toString t.id) 10 ++ " " ++ pyLjust (subjectDisplay t.subject) 40
    ++ " " ++ pyLjust (statusDisplay t.status) 12 ++ " "
    ++ pyLjust (priorityDisplay t.priority) 10

/-- What a command invocation amounts to at process level: lines echoed on
success, a ClickException (caught by click and printed as a single-line
error, exit 1), or an exception that escapes the command function
(a Python traceback, exit 1). -/
inductive CmdOutcome where
  | output (lines : List String)
  | clickError (msg : String)
  | uncaughtException (msg : String)
deriving DecidableEq, Repr

/-- Process exit code of an outcome. -/
def CmdOutcome.exitCode : CmdOutcome → Nat
  | .output _ => 0
  | .clickError _ => 1
  | .uncaughtException _ => 1

/-- Whether the outcome is an exception caught at the command layer and
re-presented as a single-line user-facing error. -/
def CmdOutcome.isSingleLineError : CmdOutcome → Bool
  | .clickError _ => true
  | _ => false

/-- The table header literal of `list`. -/
def listHeader : String :=
  "ID         Subject                                    Status       Priority   "

/-- The `list` command body after the filter dict is built: call
list_tickets and format.  There is no try/except here: an API exception
propagates out of the command function. -/
def listCmd (apiResult : Except String (List Ticket)) : CmdOutcome :=
  match apiResult with
  | Except.error e => CmdOutcome.uncaughtException e
  | Except.ok [] => CmdOutcome.output ["No tickets found."]
  | Except.ok tickets =>
      CmdOutcome.output
        (listHeader :: String.mk (List.replicate 72 '-')
          :: tickets.map formatTicketRow)

/-- The filter dict built by the `list` command from its options: a chosen
status name is mapped through status_map; `if priority:` skips a falsy
(absent or zero) priority. -/
def cliFilters (statusOpt : Option String) (priorityOpt : Option Int) :
    Filters :=
  { status := statusOpt.bind status_map
    priority :=
      match priorityOpt with
      | some p => if p == 0 then none else some p
      | none => none }

/-- The full `list` command: build filters, call the client on the server's
response, format. -/
def listCmdFull (resp : TicketsResponse) (statusOpt : Option String)
    (priorityOpt : Option Int) (limit : Int) : CmdOutcome :=
  listCmd (list_tickets resp (cliFilters statusOpt priorityOpt) limit)

/-- The assignee shown by `view`:
`ticket.responder_id if ticket.responder_id else "Unassigned"` (Python
truthiness: `None` and `0` are both falsy). -/
def assigneeDisplay : Option Int → String
  | none => "Unassigned"
  | some r => if r == 0 then "Unassigned" else toString r

/-- The lines echoed by `view` for a ticket, in order. -/
def viewLines (t : Ticket) : List String :=
  [ "Ticket #" ++ toString t.id
  , String.mk (List.replicate 60 '=')
  , "Subject: " ++ t.subject
  , "Description:"
  , t.description
  , ""
  , "Details:"
  , "  Status:    " ++ statusDisplay t.status
  , "  Priority:  " ++ priorityDisplay t.priority
  , "  Created:   " ++ t.created_at
  , "  Updated:   " ++ t.updated_at
  , "  Requester: " ++ toString t.requester_id
  , "  Assignee:  " ++ assigneeDisplay t.responder_id ]

/-- The `view` command: get_ticket inside a try that wraps any exception
into a ClickException, then print the detail view. -/
def viewCmd (apiResult : Except String Ticket) : CmdOutcome :=
  match apiResult with
  | Except.error e =>
      CmdOutcome.clickError ("Failed to retrieve ticket: " ++ e)
  | Except.ok t => CmdOutcome.output (viewLines t)

/-- The `status` command: map the status name through the dict
(click.Choice guarantees the lookup succeeds), issue the PUT via
update_ticket_status inside a try, print a confirmation on success, wrap
any exception into a ClickException.  The requests the invocation issued
are returned alongside the outcome. -/
def statusCmd (domain : String) (ticket_id : Int) (statusName : String)
    (respCode : Nat) : List HttpRequest × CmdOutcome :=
  match status_map statusName with
  | none => ([], CmdOutcome.uncaughtException "KeyError")
  | some code =>
      let r := update_ticket_status domain ticket_id code respCode
      match r.2 with
      | Except.ok _ =>
          ([r.1], CmdOutcome.output
            ["Ticket #" ++ toString ticket_id ++ " status updated to "
              ++ statusName ++ "."])
      | Except.error e =>
          ([r.1], CmdOutcome.clickError ("Failed to update ticket status: " ++ e))

/-- Python truthiness of `os.getenv`'s result: `None` and the empty string
are falsy. -/
def pyStrTruthy : Option String → Bool
  | none => false
  | some s => s != ""

/-- The Config object: `api_key` may be `None`, `domain` always gets the
getenv default. -/
structure Config where
  api_key : Option String
  domain : String
deriving DecidableEq, Repr

/-- Embeds `Config.load_from_env` over an explicit process environment: re-read
both variables into the config and return `bool(self.api_key)`. -/
def load_from_env (env : String → Option String) : Config × Bool :=
  let key := env "FRESHSERVICE_API_KEY"
  let dom := (env "FRESHSERVICE_DOMAIN").getD "freshservice.com"
  (⟨key, dom⟩, pyStrTruthy key)

/-! Helper lemmas shared by the claim theorems. -/

/-- Membership survives the Python slice: `tickets[:limit]` only drops
elements. -/
theorem mem_of_mem_pySliceTo {t : Ticket} {l : List Ticket} {n : Int}
    (h : t ∈ pySliceTo l n) : t ∈ l := by
  unfold pySliceTo at h
  split at h
  · exact List.take_subset _ _ h
  · exact List.take_subset _ _ h

/-- A ticket surviving the filter block under a set status filter has
exactly the filtered status code. -/
theorem mem_applyFilters_status {f : Filters} {ts : List Ticket} {t : Ticket}
    {s : Int} (hs : f.status = some s) (h : t ∈ applyFilters f ts) :
    t.status = s := by
  obtain ⟨fs, fp⟩ := f
  have hss : fs = some s := hs
  subst hss
  cases fp with
  | none => simp [applyFilters, List.mem_filter] at h; tauto
  | some p => simp [applyFilters, List.mem_filter] at h; tauto

/-- A ticket surviving the filter block under a set priority filter has
exactly the filtered priority code. -/
theorem mem_applyFilters_priority {f : Filters} {ts : List Ticket} {t : Ticket}
    {p : Int} (hp : f.priority = some p) (h : t ∈ applyFilters f ts) :
    t.priority = p := by
  obtain ⟨fs, fp⟩ := f
  have hpp : fp = some p := hp
  subst hpp
  cases fs with
  | none => simp [applyFilters, List.mem_filter] at h; tauto
  | some s => simp [applyFilters, List.mem_filter] at h; tauto

/-- What a successful list_tickets call returns: the parsed tickets,
filtered, then sliced to the limit. -/
theorem list_tickets_ok_eq {resp : TicketsResponse} {f : Filters} {lim : Int}
    {l : List Ticket} (h : list_tickets resp f lim = Except.ok l) :
    ∃ ts, parseTickets (resp.tickets.getD []) = some ts ∧
      l = pySliceTo (applyFilters f ts) lim := by
  unfold list_tickets at h
  cases hr : raise_for_status resp.statusCode with
  | error e => rw [hr] at h; simp at h
  | ok u =>
      rw [hr] at h
      cases hp : parseTickets (resp.tickets.getD []) with
      | none => rw [hp] at h; simp at h
      | some ts => rw [hp] at h; exact ⟨ts, rfl, (Except.ok.inj h).symm⟩

/-- A non-2xx response makes list_tickets fail with the HTTP error. -/
theorem list_tickets_err {resp : TicketsResponse} {f : Filters} {lim : Int}
    (h : ¬(200 ≤ resp.statusCode ∧ resp.statusCode ≤ 299)) :
    list_tickets resp f lim =
      Except.error ("HTTP error " ++ toString resp.statusCode) := by
  unfold list_tickets raise_for_status
  rw [if_neg h]

/-- A non-2xx response makes get_ticket fail with the HTTP error. -/
theorem get_ticket_err {resp : TicketResponse}
    (h : ¬(200 ≤ resp.statusCode ∧ resp.statusCode ≤ 299)) :
    get_ticket resp =
      Except.error ("HTTP error " ++ toString resp.statusCode) := by
  unfold get_ticket raise_for_status
  rw [if_neg h]

/-- A nonnegative Python slice is List.take. -/
theorem pySliceTo_ofNat (l : List Ticket) (n : Nat) :
    pySliceTo l (Int.ofNat n) = l.take n := by
  unfold pySliceTo
  rw [if_neg (by exact Int.not_lt.mpr (Int.ofNat_nonneg n))]
  simp

/-! The claim theorems. -/

/-- C2: in the `list` table, a subject longer than 40 characters is shown
as its first 37 characters followed by "..."; otherwise it is shown
unmodified; the table row uses exactly this displayed subject. -/
theorem c2_subject_truncation : ∀ t : Ticket,
    (t.subject.length > 40 →
      subjectDisplay t.subject = t.subject.take 37 ++ "...") ∧
    (t.subject.length ≤ 40 → subjectDisplay t.subject = t.subject) ∧
    formatTicketRow t =
      pyLjust (toString t.id) 10 ++ " " ++ pyLjust (subjectDisplay t.subject) 40
        ++ " " ++ pyLjust (statusDisplay t.status) 12 ++ " "
        ++ pyLjust (priorityDisplay t.priority) 10 := by
  intro t
  refine ⟨?_, ?_, rfl⟩
  · intro h
    unfold subjectDisplay
    rw [if_pos h]
  · intro h
    unfold subjectDisplay
    rw [if_neg (by omega)]

/-- C2 witness: a 41-character subject is truncated to 37 characters plus
"...", a short one is unchanged. -/
theorem c2_subject_truncation_witness :
    subjectDisplay "AAAAAAAAAAAAAAAAAAAAAAAAAAAAAAAAAAAAAAAAA" =
      ("AAAAAAAAAAAAAAAAAAAAAAAAAAAAAAAAAAAAAAAAA" : String).take 37 ++ "..." ∧
    subjectDisplay "Printer on fire" = "Printer on fire" := by
  constructor
  · exact (c2_subject_truncation
      ⟨1, "AAAAAAAAAAAAAAAAAAAAAAAAAAAAAAAAAAAAAAAAA", "", 2, 1, "", "", 0,
        none⟩).1 (by decide)
  · exact (c2_subject_truncation
      ⟨1, "Printer on fire", "", 2, 1, "", "", 0, none⟩).2.1 (by decide)

/-- C5: whenever the response dict has an "id" key, from_dict succeeds,
defaulting subject/description/created_at/updated_at to "", status,
priority and requester_id to 0, and responder_id to absent. -/
theorem c5_from_dict_defaults (d : TicketData) (i : Int) (h : d.id = some i) :
    Ticket.from_dict d =
      some { id := i
             subject := d.subject.getD ""
             description := d.description.getD ""
             status := d.status.getD 0
             priority := d.priority.getD 0
             created_at := d.created_at.getD ""
             updated_at := d.updated_at.getD ""
             requester_id := d.requester_id.getD 0
             responder_id := d.responder_id } := by
  unfold Ticket.from_dict
  rw [h]

/-- C5 witness: a dict carrying only an id yields the all-defaults ticket. -/
theorem c5_from_dict_defaults_witness :
    Ticket.from_dict ⟨some 7, none, none, none, none, none, none, none, none⟩ =
      some ⟨7, "", "", 0, 0, "", "", 0, none⟩ :=
  c5_from_dict_defaults ⟨some 7, none, none, none, none, none, none, none, none⟩
    7 rfl

/-- C10: from_dict fails exactly when the "id" key is absent, and a dict
providing an id alone always yields a Ticket. -/
theorem c10_only_id_required : ∀ (d : TicketData) (i : Int),
    (Ticket.from_dict d = none ↔ d.id = none) ∧
    (Ticket.from_dict
      ⟨some i, none, none, none, none, none, none, none, none⟩).isSome = true := by
  intro d i
  constructor
  · cases h : d.id <;> simp [Ticket.from_dict, h]
  · rfl

/-- C10 witness: an id-less dict fails, an id-only dict succeeds. -/
theorem c10_only_id_required_witness :
    Ticket.from_dict ⟨none, none, none, none, none, none, none, none, none⟩ =
      none ∧
    (Ticket.from_dict
      ⟨some 3, none, none, none, none, none, none, none, none⟩).isSome = true :=
  ⟨(c10_only_id_required
      ⟨none, none, none, none, none, none, none, none, none⟩ 3).1.mpr rfl,
   (c10_only_id_required
      ⟨none, none, none, none, none, none, none, none, none⟩ 3).2⟩

/-- C9: the view command's Assignee line shows "Unassigned" for any falsy
responder_id, a present zero as well as an absent one. -/
theorem c9_falsy_responder_unassigned : ∀ t : Ticket,
    t.responder_id = some 0 ∨ t.responder_id = none →
    (viewLines t)[12]? = some "  Assignee:  Unassigned" := by
  intro t h
  have : assigneeDisplay t.responder_id = "Unassigned" := by
    rcases h with h | h <;> rw [h] <;> rfl
  simp [viewLines, this]

/-- C9 witness: a ticket with responder_id zero gets the Unassigned line. -/
theorem c9_falsy_responder_unassigned_witness :
    (viewLines ⟨9, "s", "d", 2, 1, "c", "u", 4, some 0⟩)[12]? =
      some "  Assignee:  Unassigned" :=
  c9_falsy_responder_unassigned ⟨9, "s", "d", 2, 1, "c", "u", 4, some 0⟩
    (Or.inl rfl)

/-- C3: every ticket returned by list_tickets matches a set status filter
exactly (in particular, filter code 2 for --status open) and a set
priority filter exactly, and the CLI maps the four status names to codes
2, 3, 4, 5 when building the filter dict. -/
theorem c3_exact_filter_match :
    (∀ (resp : TicketsResponse) (lim : Int) (l : List Ticket),
      list_tickets resp ⟨some 2, none⟩ lim = Except.ok l →
        ∀ t ∈ l, t.status = 2) ∧
    (∀ (resp : TicketsResponse) (f : Filters) (lim : Int) (l : List Ticket)
        (s : Int), f.status = some s →
      list_tickets resp f lim = Except.ok l → ∀ t ∈ l, t.status = s) ∧
    (∀ (resp : TicketsResponse) (f : Filters) (lim : Int) (l : List Ticket)
        (p : Int), f.priority = some p →
      list_tickets resp f lim = Except.ok l → ∀ t ∈ l, t.priority = p) ∧
    (status_map "open" = some 2 ∧ status_map "pending" = some 3 ∧
      status_map "resolved" = some 4 ∧ status_map "closed" = some 5) ∧
    (cliFilters (some "open") none).status = some 2 := by
  have hst : ∀ (resp : TicketsResponse) (f : Filters) (lim : Int)
      (l : List Ticket) (s : Int), f.status = some s →
      list_tickets resp f lim = Except.ok l → ∀ t ∈ l, t.status = s := by
    intro resp f lim l s hs h t ht
    obtain ⟨ts, _, rfl⟩ := list_tickets_ok_eq h
    exact mem_applyFilters_status hs (mem_of_mem_pySliceTo ht)
  refine ⟨fun resp lim l h => hst resp ⟨some 2, none⟩ lim l 2 rfl h,
    hst, ?_, ⟨rfl, rfl, rfl, rfl⟩, rfl⟩
  intro resp f lim l p hp h t ht
  obtain ⟨ts, _, rfl⟩ := list_tickets_ok_eq h
  exact mem_applyFilters_priority hp (mem_of_mem_pySliceTo ht)

/-- C3 witness: a server answering tickets of statuses 2 and 3 under the
open filter yields only the status-2 ticket, whose status the theorem pins
to 2. -/
theorem c3_exact_filter_match_witness :
    list_tickets
        ⟨200, some [⟨some 1, none, none, some 2, none, none, none, none, none⟩,
                    ⟨some 2, none, none, some 3, none, none, none, none, none⟩]⟩
        ⟨some 2, none⟩ 20 =
      Except.ok [⟨1, "", "", 2, 0, "", "", 0, none⟩] ∧
    (⟨1, "", "", 2, 0, "", "", 0, none⟩ : Ticket).status = 2 := by
  refine ⟨rfl, ?_⟩
  exact c3_exact_filter_match.1
    ⟨200, some [⟨some 1, none, none, some 2, none, none, none, none, none⟩,
                ⟨some 2, none, none, some 3, none, none, none, none, none⟩]⟩
    20 [⟨1, "", "", 2, 0, "", "", 0, none⟩] rfl
    ⟨1, "", "", 2, 0, "", "", 0, none⟩ (by simp)

/-- C4: with a nonnegative limit n, a successful list_tickets call returns
exactly the first n elements, in server order, of the filtered ticket list
(hence at most n tickets); and against a server returning three tickets of
statuses 2, 5, 5, the closed filter with limit 1 yields exactly the first
closed ticket. -/
theorem c4_limit_after_filtering :
    (∀ (resp : TicketsResponse) (f : Filters) (n : Nat) (l : List Ticket),
      list_tickets resp f (Int.ofNat n) = Except.ok l →
      (∃ ts, parseTickets (resp.tickets.getD []) = some ts ∧
        l = (applyFilters f ts).take n) ∧ l.length ≤ n) ∧
    list_tickets
        ⟨200, some [⟨some 1, none, none, some 2, none, none, none, none, none⟩,
                    ⟨some 2, none, none, some 5, none, none, none, none, none⟩,
                    ⟨some 3, none, none, some 5, none, none, none, none, none⟩]⟩
        ⟨some 5, none⟩ 1 =
      Except.ok [⟨2, "", "", 5, 0, "", "", 0, none⟩] := by
  refine ⟨?_, rfl⟩
  intro resp f n l h
  obtain ⟨ts, hts, rfl⟩ := list_tickets_ok_eq h
  rw [pySliceTo_ofNat]
  exact ⟨⟨ts, hts, rfl⟩, List.length_take_le n _⟩

/-- C4 witness: the general part applied to a concrete server response of
two tickets with no filter and limit 1. -/
theorem c4_limit_after_filtering_witness :
    (∃ ts, parseTickets
        [⟨some 1, none, none, some 2, none, none, none, none, none⟩,
         ⟨some 2, none, none, some 3, none, none, none, none, none⟩] = some ts ∧
      [(⟨1, "", "", 2, 0, "", "", 0, none⟩ : Ticket)] =
        (applyFilters ⟨none, none⟩ ts).take 1) ∧
    [(⟨1, "", "", 2, 0, "", "", 0, none⟩ : Ticket)].length ≤ 1 :=
  c4_limit_after_filtering.1
    ⟨200, some [⟨some 1, none, none, some 2, none, none, none, none, none⟩,
                ⟨some 2, none, none, some 3, none, none, none, none, none⟩]⟩
    ⟨none, none⟩ 1 [⟨1, "", "", 2, 0, "", "", 0, none⟩] rfl

/-- C6 counterexample: a ticket whose responder_id is present but zero is
shown as "Unassigned", not as the integer 0, so "when responder_id is
present, the integer responder id is displayed" fails. -/
theorem c6_counterexample :
    assigneeDisplay (some 0) = "Unassigned" ∧
    assigneeDisplay (some 0) ≠ toString (0 : Int) ∧
    (viewLines ⟨1, "s", "d", 2, 1, "c", "u", 5, some 0⟩)[12]? =
      some "  Assignee:  Unassigned" := by
  refine ⟨rfl, by decide, by decide⟩

/-- C6 amended: the view command's Assignee line shows "Unassigned" when
responder_id is absent, the integer responder id when it is present and
nonzero, and "Unassigned" (not 0) when it is present but zero. -/
theorem c6_assignee_line : ∀ t : Ticket,
    (t.responder_id = none →
      (viewLines t)[12]? = some ("  Assignee:  " ++ "Unassigned")) ∧
    (∀ r : Int, t.responder_id = some r → r ≠ 0 →
      (viewLines t)[12]? = some ("  Assignee:  " ++ toString r)) ∧
    (t.responder_id = some 0 →
      (viewLines t)[12]? = some ("  Assignee:  " ++ "Unassigned")) := by
  intro t
  refine ⟨?_, ?_, ?_⟩
  · intro h; simp [viewLines, assigneeDisplay, h]
  · intro r h hr
    have : assigneeDisplay (some r) = toString r := by
      simp [assigneeDisplay, hr]
    simp [viewLines, h, this]
  · intro h; simp [viewLines, assigneeDisplay, h]

/-- C6 amended witness: responder 5 is displayed as 5, an absent responder
as Unassigned. -/
theorem c6_assignee_line_witness :
    (viewLines ⟨1, "s", "d", 2, 1, "c", "u", 4, some 5⟩)[12]? =
      some ("  Assignee:  " ++ toString (5 : Int)) ∧
    (viewLines ⟨1, "s", "d", 2, 1, "c", "u", 4, none⟩)[12]? =
      some ("  Assignee:  " ++ "Unassigned") :=
  ⟨(c6_assignee_line ⟨1, "s", "d", 2, 1, "c", "u", 4, some 5⟩).2.1 5 rfl
      (by decide),
   (c6_assignee_line ⟨1, "s", "d", 2, 1, "c", "u", 4, none⟩).1 rfl⟩

/-- C7: for a valid status name, the status command issues exactly one PUT
to tickets/id under the base URL with JSON body status=code, where the
name maps through open 2, pending 3, resolved 4, closed 5;
update_ticket_status returns no value (Unit) beyond raise_for_status; and
on a 2xx response the command prints the confirmation line. -/
theorem c7_status_command_put : ∀ (dom : String) (tid : Int) (nm : String)
    (code : Int) (respCode : Nat), status_map nm = some code →
    (statusCmd dom tid nm respCode).1 = [update_request dom tid code] ∧
    update_request dom tid code =
      ⟨"PUT", "https://" ++ dom ++ "/api/v2" ++ "/tickets/" ++ toString tid,
        some [("status", code)]⟩ ∧
    (update_ticket_status dom tid code respCode).2 = raise_for_status respCode ∧
    (200 ≤ respCode ∧ respCode ≤ 299 →
      (statusCmd dom tid nm respCode).2 =
        CmdOutcome.output
          ["Ticket #" ++ toString tid ++ " status updated to " ++ nm ++ "."]) ∧
    (status_map "open" = some 2 ∧ status_map "pending" = some 3 ∧
      status_map "resolved" = some 4 ∧ status_map "closed" = some 5) := by
  intro dom tid nm code respCode h
  have h2xx : ∀ hc : 200 ≤ respCode ∧ respCode ≤ 299,
      raise_for_status respCode = Except.ok () := by
    intro hc; unfold raise_for_status; rw [if_pos hc]
  refine ⟨?_, rfl, rfl, ?_, rfl, rfl, rfl, rfl⟩
  · unfold statusCmd
    rw [h]
    cases hr : raise_for_status respCode with
    | ok u => simp [update_ticket_status, hr]
    | error e => simp [update_ticket_status, hr]
  · intro hc
    unfold statusCmd
    rw [h]
    simp [update_ticket_status, h2xx hc]

/-- C7 witness: updating ticket 5 to resolved issues the single expected
PUT and, on a 200 response, prints the confirmation. -/
theorem c7_status_command_put_witness :
    (statusCmd "example.freshservice.com" 5 "resolved" 200).1 =
      [update_request "example.freshservice.com" 5 4] ∧
    (statusCmd "example.freshservice.com" 5 "resolved" 200).2 =
      CmdOutcome.output
        ["Ticket #" ++ toString (5 : Int) ++ " status updated to "
          ++ "resolved" ++ "."] := by
  obtain ⟨h1, _, _, h4, _⟩ :=
    c7_status_command_put "example.freshservice.com" 5 "resolved" 4 200 rfl
  exact ⟨h1, h4 (by decide)⟩

/-- C8: load_from_env reads the api key from FRESHSERVICE_API_KEY and the
domain from FRESHSERVICE_DOMAIN with default freshservice.com, returns
true exactly when a (nonempty) API key is present, and depends on nothing
in the process environment but those two variables. -/
theorem c8_load_from_env_reads : ∀ env : String → Option String,
    (load_from_env env).1.api_key = env "FRESHSERVICE_API_KEY" ∧
    (load_from_env env).1.domain =
      (env "FRESHSERVICE_DOMAIN").getD "freshservice.com" ∧
    ((load_from_env env).2 = true ↔
      ∃ s, env "FRESHSERVICE_API_KEY" = some s ∧ s ≠ "") ∧
    ∀ env2 : String → Option String,
      env2 "FRESHSERVICE_API_KEY" = env "FRESHSERVICE_API_KEY" →
      env2 "FRESHSERVICE_DOMAIN" = env "FRESHSERVICE_DOMAIN" →
      load_from_env env2 = load_from_env env := by
  intro env
  refine ⟨rfl, rfl, ?_, ?_⟩
  · unfold load_from_env
    cases hk : env "FRESHSERVICE_API_KEY" with
    | none => simp [pyStrTruthy, hk]
    | some s => simp [pyStrTruthy, hk]
  · intro env2 h1 h2
    unfold load_from_env
    rw [h1, h2]

/-- C8 witness: a concrete environment holding a key (and an unrelated
variable in the second environment) is read as the claim states. -/
theorem c8_load_from_env_reads_witness :
    (load_from_env
      (fun k => if k == "FRESHSERVICE_API_KEY" then some "secret" else none)).2
      = true ∧
    load_from_env
        (fun k => if k == "FRESHSERVICE_API_KEY" then some "secret"
          else if k == "HOME" then some "/root" else none) =
      load_from_env
        (fun k => if k == "FRESHSERVICE_API_KEY" then some "secret" else none) := by
  obtain ⟨_, _, h3, h4⟩ := c8_load_from_env_reads
    (fun k => if k == "FRESHSERVICE_API_KEY" then some "secret" else none)
  exact ⟨h3.mpr ⟨"secret", rfl, by decide⟩, h4 _ rfl rfl⟩

/-- C1 counterexample: a 500 response to the list command's GET is not
caught at the command layer: the outcome is an uncaught exception, not a
single-line ClickException error. -/
theorem c1_counterexample :
    listCmdFull ⟨500, some []⟩ none none 20 =
      CmdOutcome.uncaughtException ("HTTP error " ++ toString (500 : Nat)) ∧
    (listCmdFull ⟨500, some []⟩ none none 20).isSingleLineError = false := by
  exact ⟨rfl, rfl⟩

/-- C1 amended: every command exits non-zero on a non-2xx response, and
view and status catch the exception at the command layer and re-present it
as a single-line error containing the underlying failure reason; the list
command has no handler, so its exception propagates uncaught (a traceback,
still a non-zero exit). -/
theorem c1_error_handling : ∀ (resp : TicketsResponse) (gresp : TicketResponse)
    (dom : String) (tid : Int) (nm : String) (code : Int) (putCode : Nat)
    (f : Filters) (lim : Int),
    (¬(200 ≤ resp.statusCode ∧ resp.statusCode ≤ 299) →
      listCmd (list_tickets resp f lim) =
        CmdOutcome.uncaughtException
          ("HTTP error " ++ toString resp.statusCode) ∧
      (listCmd (list_tickets resp f lim)).exitCode ≠ 0 ∧
      (listCmd (list_tickets resp f lim)).isSingleLineError = false) ∧
    (¬(200 ≤ gresp.statusCode ∧ gresp.statusCode ≤ 299) →
      viewCmd (get_ticket gresp) =
        CmdOutcome.clickError
          ("Failed to retrieve ticket: "
            ++ ("HTTP error " ++ toString gresp.statusCode)) ∧
      (viewCmd (get_ticket gresp)).isSingleLineError = true ∧
      (viewCmd (get_ticket gresp)).exitCode ≠ 0) ∧
    (status_map nm = some code → ¬(200 ≤ putCode ∧ putCode ≤ 299) →
      (statusCmd dom tid nm putCode).2 =
        CmdOutcome.clickError
          ("Failed to update ticket status: "
            ++ ("HTTP error " ++ toString putCode)) ∧
      ((statusCmd dom tid nm putCode).2).isSingleLineError = true ∧
      ((statusCmd dom tid nm putCode).2).exitCode ≠ 0) := by
  intro resp gresp dom tid nm code putCode f lim
  refine ⟨?_, ?_, ?_⟩
  · intro h
    rw [list_tickets_err h]
    exact ⟨rfl, by simp [CmdOutcome.exitCode, listCmd], rfl⟩
  · intro h
    rw [get_ticket_err h]
    exact ⟨rfl, rfl, by simp [CmdOutcome.exitCode, viewCmd]⟩
  · intro hmap h
    have herr : raise_for_status putCode =
        Except.error ("HTTP error " ++ toString putCode) := by
      unfold raise_for_status; rw [if_neg h]
    unfold statusCmd
    rw [hmap]
    simp [update_ticket_status, herr, CmdOutcome.exitCode,
      CmdOutcome.isSingleLineError]

/-- C1 amended witness: concrete 404 GET responses and a 503 PUT response
produce the stated outcomes for list, view and status. -/
theorem c1_error_handling_witness :
    listCmd (list_tickets ⟨404, some []⟩ ⟨none, none⟩ 20) =
      CmdOutcome.uncaughtException ("HTTP error " ++ toString (404 : Nat)) ∧
    viewCmd (get_ticket ⟨404, none⟩) =
      CmdOutcome.clickError
        ("Failed to retrieve ticket: " ++ ("HTTP error " ++ toString (404 : Nat))) ∧
    (statusCmd "d.freshservice.com" 1 "open" 503).2 =
      CmdOutcome.clickError
        ("Failed to update ticket status: "
          ++ ("HTTP error " ++ toString (503 : Nat))) := by
  obtain ⟨h1, h2, h3⟩ := c1_error_handling ⟨404, some []⟩ ⟨404, none⟩
    "d.freshservice.com" 1 "open" 2 503 ⟨none, none⟩ 20
  exact ⟨(h1 (by decide)).1, (h2 (by decide)).1, (h3 rfl (by decide)).1⟩
